import Mathlib

/-!
A shallow embedding of the reconciliation core of the
`terraform-provider-mysql-rds-data-api` repository.

The embedding covers the two resource implementations:

* `MysqlUserResource` (src/unnamed/part_003, Go type `MysqlUserResource`):
  Create / Read / Delete over the model
  `(user, password, host, database_resource_arn, database_secret_arn)`.
* `MysqlGrantResource` (src/internal/provider/rdsdataservice_mysql_grant.go):
  Create / Read / Update / Delete over the model
  `(user, host, database, privileges, database_resource_arn, database_secret_arn)`.

Each lifecycle operation is embedded as a pure function taking an executor
`exec : Stmt → ExecReply` (modelling `rdsdata.Client.ExecuteStatement`) and
returning the ordered list of statements it issued together with its outcome.
The aws-sdk-go-v2 convention that a call returning a non-nil error returns a
nil output pointer is modelled by `ExecReply.failure` carrying no records; a
field access on that nil pointer is modelled by the explicit outcome
`GrantReadOutcome.panic`.

The attribute validators declared in the two `Schema` functions are embedded
as decidable predicates, including the exact (buggy, half-anchored)
`regexp.MatchString` semantics of the ARN patterns.
-/

/-- Go `strings.Contains s sub`: `sub` occurs as a contiguous substring of `s`
(used by the provider to classify "no such grant" executor errors). -/
def goContains (s sub : String) : Bool :=
  (s.toList.tails).any fun t => sub.toList.isPrefixOf t

/-- One token of the linear regular expressions appearing in the schema
validators: a literal character run, a single-character class, or `.*`. -/
inductive RTok where
  | lit (cs : List Char)
  | cls (p : Char → Bool)
  | anystar

/-- `matchToks ts s` holds when the token sequence `ts` matches some prefix of
`s` starting at position 0 (Go `regexp.MatchString` with a `^`-anchored
pattern and no `$`). -/
def matchToks : List RTok → List Char → Bool
  | [], _ => true
  | RTok.lit cs :: ts, s => cs.isPrefixOf s && matchToks ts (List.drop cs.length s)
  | RTok.cls _ :: _, [] => false
  | RTok.cls p :: ts, c :: rest => p c && matchToks ts rest
  | RTok.anystar :: ts, s => (s.tails).any fun t => matchToks ts t

/-- Go regexp `\w`: `[0-9A-Za-z_]`. -/
def isWordChar (c : Char) : Bool := c.isAlphanum || c == '_'

/-- Token form of the first alternative of the `database_resource_arn`
validator regex `^arn:aws:rds:.*\w-.*\w-.*\d:.*\d:cluster:.*\w|[-,_]$`
(rdsdataservice_mysql_grant.go line 103, part_003 line 99). -/
def rdsArnToks : List RTok :=
  [RTok.lit "arn:aws:rds:".toList, RTok.anystar, RTok.cls isWordChar, RTok.lit ['-'],
   RTok.anystar, RTok.cls isWordChar, RTok.lit ['-'],
   RTok.anystar, RTok.cls Char.isDigit, RTok.lit [':'],
   RTok.anystar, RTok.cls Char.isDigit, RTok.lit ":cluster:".toList,
   RTok.anystar, RTok.cls isWordChar]

/-- Token form of the first alternative of the `database_secret_arn`
validator regex
`^arn:aws:secretsmanager:.*\w-.*\w-.*\d:.*\d:secret:.*\w|[-,_]$`
(rdsdataservice_mysql_grant.go line 116, part_003 line 113). -/
def secretArnToks : List RTok :=
  [RTok.lit "arn:aws:secretsmanager:".toList, RTok.anystar, RTok.cls isWordChar, RTok.lit ['-'],
   RTok.anystar, RTok.cls isWordChar, RTok.lit ['-'],
   RTok.anystar, RTok.cls Char.isDigit, RTok.lit [':'],
   RTok.anystar, RTok.cls Char.isDigit, RTok.lit ":secret:".toList,
   RTok.anystar, RTok.cls isWordChar]

/-- The second alternative `[-,_]$` of the ARN regexes under `MatchString`
semantics: the string ends in `-`, `,` or `_`. The alternation in the Go
source binds the whole pattern, so this really is a separate way to pass. -/
def endsInDashCommaUnderscore (s : String) : Bool :=
  match s.toList.getLast? with
  | some c => c == '-' || c == ',' || c == '_'
  | none => false

/-- `stringvalidator.RegexMatches` for the `database_resource_arn` pattern. -/
def rdsArnRegexMatches (s : String) : Bool :=
  matchToks rdsArnToks s.toList || endsInDashCommaUnderscore s

/-- `stringvalidator.RegexMatches` for the `database_secret_arn` pattern. -/
def secretArnRegexMatches (s : String) : Bool :=
  matchToks secretArnToks s.toList || endsInDashCommaUnderscore s

/-- A label of the hostname regex: `[a-zA-Z0-9]` or
`[a-zA-Z0-9][a-zA-Z0-9\-]*[a-zA-Z0-9]` (first and last alphanumeric, inner
characters alphanumeric or hyphen). -/
def isHostLabel : List Char → Bool
  | [] => false
  | [c] => c.isAlphanum
  | c :: rest =>
      c.isAlphanum && rest.dropLast.all (fun d => d.isAlphanum || d == '-') &&
        (match rest.getLast? with
         | some d => d.isAlphanum
         | none => false)

/-- Split a character list at every `.` (the empty input yields one empty
segment, matching Go's treatment of the empty string as a single empty
candidate label). -/
def splitOnDot : List Char → List (List Char)
  | [] => [[]]
  | c :: rest =>
      let r := splitOnDot rest
      if c == '.' then [] :: r
      else
        match r with
        | [] => [[c]]
        | seg :: segs => (c :: seg) :: segs

/-- The fully-anchored `host` validator regex
`^(([a-zA-Z0-9]|[a-zA-Z0-9][a-zA-Z0-9\-]*[a-zA-Z0-9])\.)*([A-Za-z0-9]|[A-Za-z0-9][A-Za-z0-9\-]*[A-Za-z0-9]|%)$`
(rdsdataservice_mysql_grant.go line 73, part_003 line 89): dot-separated
labels, where the final label may also be the wildcard `%`. Labels contain no
dots, so splitting on `.` is an exact decomposition of the regex. -/
def hostRegexMatches (s : String) : Bool :=
  let segs := splitOnDot s.toList
  segs.dropLast.all isHostLabel &&
    (match segs.getLast? with
     | some l => isHostLabel l || l == ['%']
     | none => false)

/-- `MysqlGrantResourceModel` (rdsdataservice_mysql_grant.go lines 39-46).
`privileges` is a Terraform list value: `none` models `types.ListNull`,
`some l` a concrete list of string elements. -/
structure MysqlGrantResourceModel where
  user : String
  host : String
  database : String
  privileges : Option (List String)
  databaseResourceArn : String
  databaseSecretArn : String
deriving DecidableEq

/-- `MysqlUserResourceModel` (part_003 lines 39-45). -/
structure MysqlUserResourceModel where
  user : String
  password : String
  host : String
  databaseResourceArn : String
  databaseSecretArn : String
deriving DecidableEq

/-- `rdsdata.ExecuteStatementInput`: the resource ARN, secret ARN and SQL text
of one executor call. -/
structure Stmt where
  resourceArn : String
  secretArn : String
  sql : String
deriving DecidableEq

/-- The executor's reply to one statement, modelling the
`(*rdsdata.ExecuteStatementOutput, error)` pair of
`rdsdata.Client.ExecuteStatement`. `failure msg` is a non-nil error (by the
aws-sdk-go-v2 convention the output pointer is then nil, so no records are
carried); `success records` is a nil error, where `records = none` models a
nil `Records` slice and `some l` a slice whose rows are `l` (row contents are
never inspected by the provider, only counted). -/
inductive ExecReply where
  | failure (msg : String)
  | success (records : Option (List Unit))
deriving DecidableEq

/-- Go `len` of the `Records` field of a non-nil output: `len` of a nil slice
is 0. -/
def recordsLen : Option (List Unit) → Nat
  | none => 0
  | some l => l.length

/-- `conv.StringListToStrings`: the raw string elements of a Terraform list
value, in list order; a null list yields the empty slice. -/
def stringListToStrings (l : Option (List String)) : List String := l.getD []

/-- Outcome of a lifecycle operation that on success saves a state of type
`σ`: `err msg` models `resp.Diagnostics.AddError` followed by return (prior
state untouched), `ok st` models `resp.State.Set` with `st`. -/
inductive OpResult (σ : Type) where
  | err (msg : String)
  | ok (st : σ)
deriving DecidableEq

/-- Outcome of `MysqlGrantResource.Read`, which can additionally crash:
`panic` models the Go runtime nil-pointer dereference that occurs when the
code reads the `Records` field of the nil executor output. -/
inductive GrantReadOutcome where
  | err (msg : String)
  | panic
  | ok (st : MysqlGrantResourceModel)
deriving DecidableEq

/-- Outcome of a Create run through the plugin framework's validation step:
`invalid` models a `ValidationError` reported before any executor call. -/
inductive ValidatedResult (σ : Type) where
  | invalid
  | err (msg : String)
  | ok (st : σ)
deriving DecidableEq

/-- The "grant not defined" executor error message the provider
substring-matches against (rdsdataservice_mysql_grant.go lines 213-217,
263-267 and 327-331):
`There is no such grant defined for user '<user>' on host '<host>'`. -/
def grantsNotDefinedErrMsg (user host : String) : String :=
  "There is no such grant defined for user '" ++ user ++ "' on host '" ++ host ++ "'"

/-- `grantUserPrivilegesSqlQuery` built by `MysqlGrantResource.Create`
(lines 160-166): `GRANT <privileges joined by comma> ON <db>.* TO '<u>'@'<h>'`. -/
def grantCreateSqlQuery (plan : MysqlGrantResourceModel) : String :=
  "GRANT " ++ String.intercalate "," (stringListToStrings plan.privileges) ++
    " ON " ++ plan.database ++ ".* TO '" ++ plan.user ++ "'@'" ++ plan.host ++ "'"

/-- `userGrantsSqlQuery` built by `MysqlGrantResource.Read` (lines 199-203):
`SHOW GRANTS FOR '<u>'@'<h>'`. -/
def readGrantsSqlQuery (state : MysqlGrantResourceModel) : String :=
  "SHOW GRANTS FOR '" ++ state.user ++ "'@'" ++ state.host ++ "'"

/-- `revokeUserPrivilegesSqlQuery` built by `MysqlGrantResource.Update`
(lines 247-253): `REVOKE ALL PRIVILEGES ON <db>.* FROM '<u>'@'<h>'`. -/
def grantUpdateRevokeSqlQuery (plan : MysqlGrantResourceModel) : String :=
  "REVOKE ALL PRIVILEGES ON " ++ plan.database ++ ".* FROM '" ++
    plan.user ++ "'@'" ++ plan.host ++ "'"

/-- `grantUserPrivilegesSqlQuery` built by `MysqlGrantResource.Update`
(lines 274-280); the Go source duplicates the Create format string. -/
def grantUpdateGrantSqlQuery (plan : MysqlGrantResourceModel) : String :=
  "GRANT " ++ String.intercalate "," (stringListToStrings plan.privileges) ++
    " ON " ++ plan.database ++ ".* TO '" ++ plan.user ++ "'@'" ++ plan.host ++ "'"

/-- `revokeUserPrivilegesSqlQuery` built by `MysqlGrantResource.Delete`
(lines 311-317): `REVOKE <privileges joined by comma> ON <db>.* FROM '<u>'@'<h>'`. -/
def grantDeleteRevokeSqlQuery (state : MysqlGrantResourceModel) : String :=
  "REVOKE " ++ String.intercalate "," (stringListToStrings state.privileges) ++
    " ON " ++ state.database ++ ".* FROM '" ++ state.user ++ "'@'" ++ state.host ++ "'"

/-- `createUserSqlQuery` built by `MysqlUserResource.Create` (part_003 lines
158-163): `CREATE USER IF NOT EXISTS '<u>'@'<h>' IDENTIFIED BY '<password>'`. -/
def createUserSqlQuery (plan : MysqlUserResourceModel) : String :=
  "CREATE USER IF NOT EXISTS '" ++ plan.user ++ "'@'" ++ plan.host ++
    "' IDENTIFIED BY '" ++ plan.password ++ "'"

/-- `userSqlQuery` built by `MysqlUserResource.Read` (part_003 lines 196-200):
`SELECT user,host FROM mysql.user WHERE user='<u>' AND host='<h>'`. -/
def readUserSqlQuery (state : MysqlUserResourceModel) : String :=
  "SELECT user,host FROM mysql.user WHERE user='" ++ state.user ++
    "' AND host='" ++ state.host ++ "'"

/-- `deleteUserSqlQuery` built by `MysqlUserResource.Delete` (part_003 lines
273-277): `DROP USER IF EXISTS '<u>'@'<h>'`. -/
def deleteUserSqlQuery (state : MysqlUserResourceModel) : String :=
  "DROP USER IF EXISTS '" ++ state.user ++ "'@'" ++ state.host ++ "'"

/-- The `ExecuteStatementInput` of `MysqlGrantResource.Create` (lines 168-172). -/
def grantCreateStmt (plan : MysqlGrantResourceModel) : Stmt :=
  ⟨plan.databaseResourceArn, plan.databaseSecretArn, grantCreateSqlQuery plan⟩

/-- The `ExecuteStatementInput` of `MysqlGrantResource.Read` (lines 205-209). -/
def readGrantsStmt (state : MysqlGrantResourceModel) : Stmt :=
  ⟨state.databaseResourceArn, state.databaseSecretArn, readGrantsSqlQuery state⟩

/-- The revoke `ExecuteStatementInput` of `MysqlGrantResource.Update`
(lines 255-259). -/
def grantUpdateRevokeStmt (plan : MysqlGrantResourceModel) : Stmt :=
  ⟨plan.databaseResourceArn, plan.databaseSecretArn, grantUpdateRevokeSqlQuery plan⟩

/-- The grant `ExecuteStatementInput` of `MysqlGrantResource.Update`
(lines 282-286). -/
def grantUpdateGrantStmt (plan : MysqlGrantResourceModel) : Stmt :=
  ⟨plan.databaseResourceArn, plan.databaseSecretArn, grantUpdateGrantSqlQuery plan⟩

/-- The `ExecuteStatementInput` of `MysqlGrantResource.Delete` (lines 319-323). -/
def grantDeleteStmt (state : MysqlGrantResourceModel) : Stmt :=
  ⟨state.databaseResourceArn, state.databaseSecretArn, grantDeleteRevokeSqlQuery state⟩

/-- The `ExecuteStatementInput` of `MysqlUserResource.Create` (part_003
lines 165-169). -/
def createUserStmt (plan : MysqlUserResourceModel) : Stmt :=
  ⟨plan.databaseResourceArn, plan.databaseSecretArn, createUserSqlQuery plan⟩

/-- The `ExecuteStatementInput` of `MysqlUserResource.Read` (part_003
lines 201-205). -/
def readUserStmt (state : MysqlUserResourceModel) : Stmt :=
  ⟨state.databaseResourceArn, state.databaseSecretArn, readUserSqlQuery state⟩

/-- The `ExecuteStatementInput` of `MysqlUserResource.Delete` (part_003
lines 279-283). -/
def deleteUserStmt (state : MysqlUserResourceModel) : Stmt :=
  ⟨state.databaseResourceArn, state.databaseSecretArn, deleteUserSqlQuery state⟩

namespace MysqlGrantResource

/-- `MysqlGrantResource.Create` (lines 148-185): issue the GRANT statement;
a non-nil executor error is fatal, otherwise the plan is saved as state. -/
def create (exec : Stmt → ExecReply) (plan : MysqlGrantResourceModel) :
    List Stmt × OpResult MysqlGrantResourceModel :=
  match exec (grantCreateStmt plan) with
  | ExecReply.failure msg => ([grantCreateStmt plan], OpResult.err msg)
  | ExecReply.success _ => ([grantCreateStmt plan], OpResult.ok plan)

/-- `MysqlGrantResource.Read` (lines 187-232): issue `SHOW GRANTS`; an
executor error whose message does not contain `grantsNotDefinedErrMsg` is
fatal (line 218). When the error does contain it the code falls through to
line 224 and reads `userGrantsSqlQueryResult.Records`, but on a non-nil error
`ExecuteStatement` returned a nil output pointer, so that field access is a
runtime nil-pointer dereference, modelled as `GrantReadOutcome.panic`. On
success, the privilege list is set to `types.ListNull` exactly when the
output's `Records` slice is non-nil and has length 1 (line 224). -/
def read (exec : Stmt → ExecReply) (state : MysqlGrantResourceModel) :
    List Stmt × GrantReadOutcome :=
  match exec (readGrantsStmt state) with
  | ExecReply.failure msg =>
      if goContains msg (grantsNotDefinedErrMsg state.user state.host) then
        ([readGrantsStmt state], GrantReadOutcome.panic)
      else
        ([readGrantsStmt state], GrantReadOutcome.err msg)
  | ExecReply.success records =>
      if (match records with
          | some l => l.length == 1
          | none => false) then
        ([readGrantsStmt state], GrantReadOutcome.ok { state with privileges := none })
      else
        ([readGrantsStmt state], GrantReadOutcome.ok state)

/-- `MysqlGrantResource.Update` (lines 234-297): revoke all privileges on the
plan's `(database, user, host)` first; a revoke error not containing
`grantsNotDefinedErrMsg` is fatal (line 268). Then issue the GRANT with the
plan's privileges; any grant error is fatal (line 290), otherwise the plan is
saved as state. -/
def update (exec : Stmt → ExecReply) (plan : MysqlGrantResourceModel) :
    List Stmt × OpResult MysqlGrantResourceModel :=
  let grantStep : List Stmt × OpResult MysqlGrantResourceModel :=
    match exec (grantUpdateGrantStmt plan) with
    | ExecReply.failure msg =>
        ([grantUpdateRevokeStmt plan, grantUpdateGrantStmt plan], OpResult.err msg)
    | ExecReply.success _ =>
        ([grantUpdateRevokeStmt plan, grantUpdateGrantStmt plan], OpResult.ok plan)
  match exec (grantUpdateRevokeStmt plan) with
  | ExecReply.failure msg =>
      if goContains msg (grantsNotDefinedErrMsg plan.user plan.host) then grantStep
      else ([grantUpdateRevokeStmt plan], OpResult.err msg)
  | ExecReply.success _ => grantStep

/-- `MysqlGrantResource.Delete` (lines 299-336): revoke exactly the
last-observed privilege list; an executor error not containing
`grantsNotDefinedErrMsg` is fatal (line 332), any other outcome succeeds
(`none` = no error). -/
def delete (exec : Stmt → ExecReply) (state : MysqlGrantResourceModel) :
    List Stmt × Option String :=
  match exec (grantDeleteStmt state) with
  | ExecReply.failure msg =>
      if goContains msg (grantsNotDefinedErrMsg state.user state.host) then
        ([grantDeleteStmt state], none)
      else
        ([grantDeleteStmt state], some msg)
  | ExecReply.success _ => ([grantDeleteStmt state], none)

end MysqlGrantResource

namespace MysqlUserResource

/-- `MysqlUserResource.Create` (part_003 lines 146-182): issue `CREATE USER IF
NOT EXISTS`; a non-nil executor error is fatal, otherwise the plan is saved. -/
def create (exec : Stmt → ExecReply) (plan : MysqlUserResourceModel) :
    List Stmt × OpResult MysqlUserResourceModel :=
  match exec (createUserStmt plan) with
  | ExecReply.failure msg => ([createUserStmt plan], OpResult.err msg)
  | ExecReply.success _ => ([createUserStmt plan], OpResult.ok plan)

/-- `MysqlUserResource.Read` (part_003 lines 184-223): issue the catalog
lookup; any executor error is fatal (line 209). On success, when the output
has zero records (a nil slice also has length 0) `user` and `host` are set to
empty strings (lines 214-219); otherwise the state is saved unchanged. -/
def read (exec : Stmt → ExecReply) (state : MysqlUserResourceModel) :
    List Stmt × OpResult MysqlUserResourceModel :=
  match exec (readUserStmt state) with
  | ExecReply.failure msg => ([readUserStmt state], OpResult.err msg)
  | ExecReply.success records =>
      if recordsLen records == 0 then
        ([readUserStmt state], OpResult.ok { state with user := "", host := "" })
      else
        ([readUserStmt state], OpResult.ok state)

/-- `MysqlUserResource.Delete` (part_003 lines 261-291): issue `DROP USER IF
EXISTS`; a non-nil executor error is fatal, otherwise success (`none`). -/
def delete (exec : Stmt → ExecReply) (state : MysqlUserResourceModel) :
    List Stmt × Option String :=
  match exec (deleteUserStmt state) with
  | ExecReply.failure msg => ([deleteUserStmt state], some msg)
  | ExecReply.success _ => ([deleteUserStmt state], none)

end MysqlUserResource

/-- The `user` attribute validators of the grant schema
(rdsdataservice_mysql_grant.go lines 58-67): `LengthAtLeast(1)` (Go `len`
counts bytes) and `NoneOf("sys")`. -/
def grantUserAttrValid (user : String) : Bool :=
  (1 ≤ user.utf8ByteSize) && !(["sys"] : List String).contains user

/-- The `database` attribute validators of the grant schema (lines 78-86):
`LengthAtLeast(1)` and `NoneOf("rdsadmin", "mysql.sys")`. -/
def grantDatabaseAttrValid (db : String) : Bool :=
  (1 ≤ db.utf8ByteSize) && !(["rdsadmin", "mysql.sys"] : List String).contains db

/-- The `privileges` attribute validators of the grant schema (lines 87-97):
`SizeAtLeast(1)` with every element `LengthAtLeast(1)`; a null list value for
this required attribute does not validate. -/
def grantPrivilegesAttrValid : Option (List String) → Bool
  | none => false
  | some l => (1 ≤ l.length) && l.all fun p => 1 ≤ p.utf8ByteSize

/-- All declared attribute validators of the grant schema (lines 52-126). -/
def grantResourceValid (plan : MysqlGrantResourceModel) : Bool :=
  grantUserAttrValid plan.user && hostRegexMatches plan.host &&
    grantDatabaseAttrValid plan.database && grantPrivilegesAttrValid plan.privileges &&
    rdsArnRegexMatches plan.databaseResourceArn &&
    secretArnRegexMatches plan.databaseSecretArn

/-- The `user` attribute validators of the user schema (part_003 lines
57-70): `LengthAtLeast(1)` and `NoneOf("rdsadmin", "mysql.sys")` — note the
reserved set here does not include the literal `sys`. -/
def userUserAttrValid (user : String) : Bool :=
  (1 ≤ user.utf8ByteSize) && !(["rdsadmin", "mysql.sys"] : List String).contains user

/-- All declared attribute validators of the user schema (part_003 lines
51-124): the reserved-name and length check on `user`, `LengthAtLeast(16)` on
`password`, and the host and ARN patterns. -/
def userResourceValid (plan : MysqlUserResourceModel) : Bool :=
  userUserAttrValid plan.user && (16 ≤ plan.password.utf8ByteSize) &&
    hostRegexMatches plan.host && rdsArnRegexMatches plan.databaseResourceArn &&
    secretArnRegexMatches plan.databaseSecretArn

/-- Modelled from the spec: the surrounding plugin framework (out of scope of
the source files, interface per spec section 7) runs the schema's declared
validators before invoking `Create`; a validation failure is reported as a
`ValidationError` and stops before any executor call. The validator
predicates themselves are translated from the `Schema` declarations in the
source. -/
def grantCreateValidated (exec : Stmt → ExecReply) (plan : MysqlGrantResourceModel) :
    List Stmt × ValidatedResult MysqlGrantResourceModel :=
  if grantResourceValid plan then
    match MysqlGrantResource.create exec plan with
    | (stmts, OpResult.err msg) => (stmts, ValidatedResult.err msg)
    | (stmts, OpResult.ok st) => (stmts, ValidatedResult.ok st)
  else ([], ValidatedResult.invalid)

/-- Modelled from the spec: the framework-side validation gate for
`MysqlUserResource.Create`, as for `grantCreateValidated`. -/
def userCreateValidated (exec : Stmt → ExecReply) (plan : MysqlUserResourceModel) :
    List Stmt × ValidatedResult MysqlUserResourceModel :=
  if userResourceValid plan then
    match MysqlUserResource.create exec plan with
    | (stmts, OpResult.err msg) => (stmts, ValidatedResult.err msg)
    | (stmts, OpResult.ok st) => (stmts, ValidatedResult.ok st)
  else ([], ValidatedResult.invalid)

/-- Modelled from the spec: the external executor's handling of `DROP USER IF
EXISTS` (spec sections 4.1 and 4.3: the `IF EXISTS` guard makes the drop a
successful no-op when the account is absent, so the statement never errors at
the SQL layer). The remote catalog is a list of `(user, host)` principals;
the drop removes the matching principal if present and always succeeds with
an empty result. -/
def dropUserIfExistsExec (db : List (String × String)) (user host : String) :
    List (String × String) × ExecReply :=
  (db.filter fun p => !(p.1 == user && p.2 == host), ExecReply.success (some []))

/-- `MysqlUserResource.Delete` run against the modelled remote catalog: the
single statement the provider issues is the `DROP USER IF EXISTS` for the
state's `(user, host)`, answered by `dropUserIfExistsExec`. Returns the
catalog after the call together with the provider's issued statements and
error outcome. -/
def userDeleteAgainstDb (db : List (String × String)) (state : MysqlUserResourceModel) :
    List (String × String) × (List Stmt × Option String) :=
  let step := dropUserIfExistsExec db state.user state.host
  (step.1, MysqlUserResource.delete (fun _ => step.2) state)

set_option maxRecDepth 8000

/-- C1: the claim states that a Grant Read whose executor call fails with a
message containing the not-found pattern completes successfully as an Absent
observation and never crashes. The code instead falls through its error check
and reads the `Records` field of the executor output, which is a nil pointer
whenever the error is non-nil, so exactly on the tolerated not-found path the
Read panics with a nil-pointer dereference instead of finishing. This theorem
evaluates the embedded Read at such a failing input. -/
theorem c1_grant_read_not_found_panics :
    MysqlGrantResource.read
      (fun _ => ExecReply.failure
        ("BadRequestException: " ++ grantsNotDefinedErrMsg "test" "%"))
      { user := "test", host := "%", database := "integration_test",
        privileges := some ["SELECT", "INSERT", "UPDATE"],
        databaseResourceArn := "arnR-", databaseSecretArn := "arnS-" } =
      ([⟨"arnR-", "arnS-", "SHOW GRANTS FOR 'test'@'%'"⟩], GrantReadOutcome.panic) := by
  decide

/-- A prior Grant state holding `SELECT` on database `integration_test`. -/
def c2PriorState : MysqlGrantResourceModel :=
  { user := "test", host := "%", database := "integration_test",
    privileges := some ["SELECT"],
    databaseResourceArn := "arnR-", databaseSecretArn := "arnS-" }

/-- A desired plan for the same grant resource that moves the grant to
database `other_db`. None of `user`, `host`, `database` or `privileges`
carries a `RequiresReplace` plan modifier in the grant schema (only the two
ARNs do, lines 107-109 and 120-122), so this in-place change of `database`
reaches Update with a plan differing from the prior state. -/
def c2DesiredPlan : MysqlGrantResourceModel :=
  { user := "test", host := "%", database := "other_db",
    privileges := some ["INSERT"],
    databaseResourceArn := "arnR-", databaseSecretArn := "arnS-" }

/-- C2 counterexample: the claim requires the revoke step of every Grant
Update to target the current (prior-state) `(user, host, database)` tuple,
but `MysqlGrantResource.Update` reads only `req.Plan` (lines 235-238) and
builds the revoke from the plan. At the concrete update from prior state
`c2PriorState` to desired plan `c2DesiredPlan`, the first issued statement is
`REVOKE ALL PRIVILEGES ON other_db.* FROM 'test'@'%'` — the desired tuple's
database — and differs from the revoke against the current tuple, whose
grants on `integration_test` are left untouched. -/
theorem c2_counterexample :
    (MysqlGrantResource.update (fun _ => ExecReply.success (some [])) c2DesiredPlan).1 =
      [grantUpdateRevokeStmt c2DesiredPlan, grantUpdateGrantStmt c2DesiredPlan] ∧
    (grantUpdateRevokeStmt c2DesiredPlan).sql =
      "REVOKE ALL PRIVILEGES ON other_db.* FROM 'test'@'%'" ∧
    (grantUpdateRevokeStmt c2DesiredPlan).sql ≠
      "REVOKE ALL PRIVILEGES ON " ++ c2PriorState.database ++ ".* FROM '" ++
        c2PriorState.user ++ "'@'" ++ c2PriorState.host ++ "'" := by
  decide

/-- C2 amended: in every Grant Update run in which the revoke step does not
fail fatally (it succeeds, or fails with a message containing the not-found
pattern, the hypothesis `hrev`), the reconciler issues exactly two executor
statements in order — the REVOKE ALL PRIVILEGES statement for the desired
plan's `(user, host, database)` tuple (not the prior state's: the code reads
only the plan) and then the GRANT statement with the desired privilege
list — and a failure of the grant step is fatal (an error outcome, so no
state is saved) while its success saves the plan as state. -/
theorem c2_grant_update_revoke_then_grant (exec : Stmt → ExecReply)
    (plan : MysqlGrantResourceModel)
    (hrev : ∀ msg, exec (grantUpdateRevokeStmt plan) = ExecReply.failure msg →
      goContains msg (grantsNotDefinedErrMsg plan.user plan.host) = true) :
    (MysqlGrantResource.update exec plan).1 =
        [grantUpdateRevokeStmt plan, grantUpdateGrantStmt plan] ∧
    (∀ msg, exec (grantUpdateGrantStmt plan) = ExecReply.failure msg →
        (MysqlGrantResource.update exec plan).2 = OpResult.err msg) ∧
    (∀ recs, exec (grantUpdateGrantStmt plan) = ExecReply.success recs →
        (MysqlGrantResource.update exec plan).2 = OpResult.ok plan) := by
  refine ⟨?_, ?_, ?_⟩
  · cases hr : exec (grantUpdateRevokeStmt plan) with
    | failure msg =>
        have hc := hrev msg hr
        cases hg : exec (grantUpdateGrantStmt plan) <;>
          simp [MysqlGrantResource.update, hr, hc, hg]
    | success recs =>
        cases hg : exec (grantUpdateGrantStmt plan) <;>
          simp [MysqlGrantResource.update, hr, hg]
  · intro msg hg
    cases hr : exec (grantUpdateRevokeStmt plan) with
    | failure m =>
        have hc := hrev m hr
        simp [MysqlGrantResource.update, hr, hc, hg]
    | success recs => simp [MysqlGrantResource.update, hr, hg]
  · intro recs hg
    cases hr : exec (grantUpdateRevokeStmt plan) with
    | failure m =>
        have hc := hrev m hr
        simp [MysqlGrantResource.update, hr, hc, hg]
    | success r => simp [MysqlGrantResource.update, hr, hg]

/-- A concrete Grant plan used to witness C2. -/
def c2Plan : MysqlGrantResourceModel :=
  { user := "test", host := "%", database := "integration_test",
    privileges := some ["INSERT", "UPDATE"],
    databaseResourceArn := "arnR-", databaseSecretArn := "arnS-" }

/-- C2 witness: against an executor answering every statement with success,
the Update issues the revoke and then the grant. -/
theorem c2_witness :
    (MysqlGrantResource.update (fun _ => ExecReply.success (some [])) c2Plan).1 =
      [grantUpdateRevokeStmt c2Plan, grantUpdateGrantStmt c2Plan] :=
  (c2_grant_update_revoke_then_grant _ c2Plan (fun _ h => ExecReply.noConfusion h)).1

/-- C3: on a Grant Read whose executor call succeeds, the saved state is the
prior state with its privilege list blanked exactly when the result carries
exactly one record (a non-nil `Records` slice of length 1, the implicit USAGE
row); for any other record count — zero, a nil slice, or two and more — the
prior state is saved unchanged. The hypothesis `hp` (the prior privilege list
is not already null) makes the blanked state distinguishable from the prior
one. -/
theorem c3_grant_read_blanks_iff_one_record (exec : Stmt → ExecReply)
    (state : MysqlGrantResourceModel) (records : Option (List Unit))
    (hx : exec (readGrantsStmt state) = ExecReply.success records)
    (hp : state.privileges ≠ none) :
    ((MysqlGrantResource.read exec state).2 =
        GrantReadOutcome.ok { state with privileges := none } ↔
      (records ≠ none ∧ recordsLen records = 1)) ∧
    (¬(records ≠ none ∧ recordsLen records = 1) →
      (MysqlGrantResource.read exec state).2 = GrantReadOutcome.ok state) := by
  obtain ⟨u, h, d, p, ra, sa⟩ := state
  cases records with
  | none =>
      simp [MysqlGrantResource.read, hx, recordsLen] at hp ⊢
      intro heq
      exact hp heq
  | some l =>
      by_cases hl : l.length = 1
      · simp [MysqlGrantResource.read, hx, recordsLen, hl]
      · simp [MysqlGrantResource.read, hx, recordsLen, hl] at hp ⊢
        intro heq
        exact hp heq

/-- A concrete Grant prior state used to witness C3. -/
def c3State : MysqlGrantResourceModel :=
  { user := "test", host := "%", database := "integration_test",
    privileges := some ["SELECT"],
    databaseResourceArn := "arnR-", databaseSecretArn := "arnS-" }

/-- C3 witness: a successful read returning exactly one record blanks the
privilege list of a state that held `SELECT`. -/
theorem c3_witness :
    ((MysqlGrantResource.read (fun _ => ExecReply.success (some [()])) c3State).2 =
        GrantReadOutcome.ok { c3State with privileges := none } ↔
      ((some [()] : Option (List Unit)) ≠ none ∧ recordsLen (some [()]) = 1)) ∧
    (¬((some [()] : Option (List Unit)) ≠ none ∧ recordsLen (some [()]) = 1) →
      (MysqlGrantResource.read (fun _ => ExecReply.success (some [()])) c3State).2 =
        GrantReadOutcome.ok c3State) :=
  c3_grant_read_blanks_iff_one_record _ c3State (some [()]) rfl (by decide)

/-- C4: on a Principal Read whose executor call succeeds, the saved state has
`user` and `host` blanked to empty strings exactly when the result carries
zero rows; any non-empty result saves the prior state unchanged. -/
theorem c4_user_read_blank_iff_zero_records (exec : Stmt → ExecReply)
    (state : MysqlUserResourceModel) (records : Option (List Unit))
    (hx : exec (readUserStmt state) = ExecReply.success records) :
    (recordsLen records = 0 →
      (MysqlUserResource.read exec state).2 =
        OpResult.ok { state with user := "", host := "" }) ∧
    (recordsLen records ≠ 0 →
      (MysqlUserResource.read exec state).2 = OpResult.ok state) := by
  constructor
  · intro h0
    simp [MysqlUserResource.read, hx, h0]
  · intro hn
    simp [MysqlUserResource.read, hx, hn]

/-- A concrete Principal prior state used to witness C4. -/
def c4State : MysqlUserResourceModel :=
  { user := "test", password := "test123456789012", host := "%",
    databaseResourceArn := "arnR-", databaseSecretArn := "arnS-" }

/-- C4 witness: a successful read with an empty row set blanks `user` and
`host` of a previously created principal. -/
theorem c4_witness :
    (recordsLen (some []) = 0 →
      (MysqlUserResource.read (fun _ => ExecReply.success (some [])) c4State).2 =
        OpResult.ok { c4State with user := "", host := "" }) ∧
    (recordsLen (some []) ≠ 0 →
      (MysqlUserResource.read (fun _ => ExecReply.success (some [])) c4State).2 =
        OpResult.ok c4State) :=
  c4_user_read_blank_iff_zero_records _ c4State (some []) rfl

/-- A Grant plan listing privileges as `SELECT, INSERT`. -/
def c5PlanA : MysqlGrantResourceModel :=
  { user := "test", host := "%", database := "integration_test",
    privileges := some ["SELECT", "INSERT"],
    databaseResourceArn := "arnR-", databaseSecretArn := "arnS-" }

/-- The same Grant plan with the privileges permuted to `INSERT, SELECT`. -/
def c5PlanB : MysqlGrantResourceModel :=
  { user := "test", host := "%", database := "integration_test",
    privileges := some ["INSERT", "SELECT"],
    databaseResourceArn := "arnR-", databaseSecretArn := "arnS-" }

/-- C5 counterexample: two privilege lists with the same elements in
different orders render different GRANT SQL texts — the builder joins the
privileges in input list order and performs no canonical sorting, so the
rendered statement is not independent of the input ordering. -/
theorem c5_counterexample :
    List.Perm ["SELECT", "INSERT"] ["INSERT", "SELECT"] ∧
    grantCreateSqlQuery c5PlanA ≠ grantCreateSqlQuery c5PlanB :=
  ⟨List.Perm.swap "INSERT" "SELECT" [], by decide⟩

/-- C5 amended: the GRANT SQL text rendered by Grant Create and by Grant
Update is the same deterministic function of the plan's privileges, database,
user and host — identical inputs (in particular two plans with the same
privilege list, in the same order) always render the identical statement
across both operations; the privileges are joined in input list order, so
permuting the list may change the statement. -/
theorem c5_amended_grant_sql_deterministic (p q : MysqlGrantResourceModel)
    (hpriv : p.privileges = q.privileges) (hdb : p.database = q.database)
    (hu : p.user = q.user) (hh : p.host = q.host) :
    grantCreateSqlQuery p = grantUpdateGrantSqlQuery q := by
  unfold grantCreateSqlQuery grantUpdateGrantSqlQuery
  rw [hpriv, hdb, hu, hh]

/-- C5 amended witness: the Create-side and Update-side builders render the
identical statement from plans agreeing on privileges, database, user and
host (here differing in their resource ARN). -/
theorem c5_amended_witness :
    grantCreateSqlQuery c5PlanA =
      grantUpdateGrantSqlQuery { c5PlanA with databaseResourceArn := "other-" } :=
  c5_amended_grant_sql_deterministic _ _ rfl rfl rfl rfl

/-- A Principal plan whose user is the literal `sys`, otherwise passing every
declared validator of the user schema. -/
def c6SysUserPlan : MysqlUserResourceModel :=
  { user := "sys", password := "test123456789012", host := "%",
    databaseResourceArn := "arn:aws:rds:us-east-1:123456789012:cluster:demo",
    databaseSecretArn := "arn:aws:secretsmanager:us-east-1:123456789012:secret:demo" }

/-- C6 counterexample: the claim requires every Create with user `sys` to
fail validation with zero executor invocations, but the Principal resource's
reserved user names are `rdsadmin` and `mysql.sys` only, so its Create with
user `sys` passes validation and issues one executor statement. -/
theorem c6_counterexample :
    userCreateValidated (fun _ => ExecReply.success (some [])) c6SysUserPlan =
      ([createUserStmt c6SysUserPlan], ValidatedResult.ok c6SysUserPlan) := by
  decide

/-- C6 amended: for the Grant resource — the one carrying both a `user` and a
`database` attribute — a Create whose plan has user `sys` or database
`mysql.sys` fails attribute validation before any executor call: no statement
is issued and a ValidationError is reported. -/
theorem c6_amended_grant_reserved_names (exec : Stmt → ExecReply)
    (plan : MysqlGrantResourceModel)
    (h : plan.user = "sys" ∨ plan.database = "mysql.sys") :
    grantCreateValidated exec plan = ([], ValidatedResult.invalid) := by
  have hv : grantResourceValid plan = false := by
    rcases h with h | h
    · have h1 : grantUserAttrValid plan.user = false := by rw [h]; decide
      simp [grantResourceValid, h1]
    · have h1 : grantDatabaseAttrValid plan.database = false := by rw [h]; decide
      simp [grantResourceValid, h1]
  simp [grantCreateValidated, hv]

/-- A Grant plan whose user is the literal `sys`. -/
def c6GrantSysPlan : MysqlGrantResourceModel :=
  { user := "sys", host := "%", database := "integration_test",
    privileges := some ["SELECT"],
    databaseResourceArn := "arn:aws:rds:us-east-1:123456789012:cluster:demo",
    databaseSecretArn := "arn:aws:secretsmanager:us-east-1:123456789012:secret:demo" }

/-- C6 amended witness: a Grant Create with user `sys` reports a
ValidationError and invokes the executor zero times. -/
theorem c6_amended_witness :
    grantCreateValidated (fun _ => ExecReply.success (some [])) c6GrantSysPlan =
      ([], ValidatedResult.invalid) :=
  c6_amended_grant_reserved_names _ c6GrantSysPlan (Or.inl rfl)

/-- C7: for every Principal plan passing the schema validators, Create issues
exactly one statement, against the plan's resource and secret ARNs, whose SQL
text is `CREATE USER IF NOT EXISTS '<user>'@'<host>' IDENTIFIED BY
'<password>'`. -/
theorem c7_user_create_sql (exec : Stmt → ExecReply) (plan : MysqlUserResourceModel)
    (hvalid : userResourceValid plan = true) :
    (userCreateValidated exec plan).1 =
      [⟨plan.databaseResourceArn, plan.databaseSecretArn,
        "CREATE USER IF NOT EXISTS '" ++ plan.user ++ "'@'" ++ plan.host ++
          "' IDENTIFIED BY '" ++ plan.password ++ "'"⟩] := by
  have h1 : (userCreateValidated exec plan).1 = [createUserStmt plan] := by
    cases hx : exec (createUserStmt plan) <;>
      simp [userCreateValidated, hvalid, MysqlUserResource.create, hx]
  rw [h1]
  rfl

/-- The spec's end-to-end example plan: user `test`, host `%`, password
`test123456789012`, concrete resource and credential ARNs. -/
def c7Plan : MysqlUserResourceModel :=
  { user := "test", password := "test123456789012", host := "%",
    databaseResourceArn := "arn:aws:rds:us-east-1:123456789012:cluster:demo",
    databaseSecretArn := "arn:aws:secretsmanager:us-east-1:123456789012:secret:demo" }

/-- C7 witness: the example Create issues exactly
`CREATE USER IF NOT EXISTS 'test'@'%' IDENTIFIED BY 'test123456789012'`
as a single statement against the plan's `(resource ARN, secret ARN)`. -/
theorem c7_witness :
    (userCreateValidated (fun _ => ExecReply.success (some [])) c7Plan).1 =
      [⟨"arn:aws:rds:us-east-1:123456789012:cluster:demo",
        "arn:aws:secretsmanager:us-east-1:123456789012:secret:demo",
        "CREATE USER IF NOT EXISTS 'test'@'%' IDENTIFIED BY 'test123456789012'"⟩] :=
  c7_user_create_sql (fun _ => ExecReply.success (some [])) c7Plan (by decide)

/-- C8: every Grant Delete issues exactly one statement — the REVOKE built
from the last-observed privilege list joined by commas — and an executor
failure whose message contains the not-found pattern is not treated as fatal
(the outcome carries no error). -/
theorem c8_grant_delete (exec : Stmt → ExecReply) (state : MysqlGrantResourceModel) :
    (MysqlGrantResource.delete exec state).1 = [grantDeleteStmt state] ∧
    (∀ msg, exec (grantDeleteStmt state) = ExecReply.failure msg →
      goContains msg (grantsNotDefinedErrMsg state.user state.host) = true →
      (MysqlGrantResource.delete exec state).2 = none) := by
  constructor
  · cases hx : exec (grantDeleteStmt state) with
    | failure msg =>
        by_cases hc : goContains msg (grantsNotDefinedErrMsg state.user state.host) = true <;>
          simp [MysqlGrantResource.delete, hx, hc]
    | success recs => simp [MysqlGrantResource.delete, hx]
  · intro msg hx hc
    simp [MysqlGrantResource.delete, hx, hc]

/-- The spec's end-to-end example prior state for Grant Delete. -/
def c8State : MysqlGrantResourceModel :=
  { user := "test", host := "%", database := "integration_test",
    privileges := some ["SELECT", "INSERT", "UPDATE"],
    databaseResourceArn := "arnR-", databaseSecretArn := "arnS-" }

/-- C8 witness: deleting the example Grant issues exactly
`REVOKE SELECT,INSERT,UPDATE ON integration_test.* FROM 'test'@'%'`, and a
not-found executor failure leaves the outcome error-free. -/
theorem c8_witness :
    (MysqlGrantResource.delete
        (fun _ => ExecReply.failure (grantsNotDefinedErrMsg "test" "%")) c8State).1 =
      [⟨"arnR-", "arnS-",
        "REVOKE SELECT,INSERT,UPDATE ON integration_test.* FROM 'test'@'%'"⟩] ∧
    (MysqlGrantResource.delete
        (fun _ => ExecReply.failure (grantsNotDefinedErrMsg "test" "%")) c8State).2 = none := by
  have h := c8_grant_delete
    (fun _ => ExecReply.failure (grantsNotDefinedErrMsg "test" "%")) c8State
  exact ⟨h.1, h.2 _ rfl (by decide)⟩

/-- C9: Principal Delete is idempotent. Running Delete against the modelled
remote catalog removes the principal, and running it a second time — when the
principal is already absent — succeeds without error, issuing the same
`DROP USER IF EXISTS '<user>'@'<host>'` statement whose IF EXISTS guard makes
the drop a no-op at the SQL layer. -/
theorem c9_user_delete_idempotent (db : List (String × String))
    (state : MysqlUserResourceModel) :
    ((state.user, state.host) ∉ (userDeleteAgainstDb db state).1) ∧
    ((userDeleteAgainstDb (userDeleteAgainstDb db state).1 state).2).2 = none ∧
    ((userDeleteAgainstDb (userDeleteAgainstDb db state).1 state).2).1 =
      [deleteUserStmt state] := by
  refine ⟨?_, rfl, rfl⟩
  intro hmem
  simp [userDeleteAgainstDb, dropUserIfExistsExec, List.mem_filter] at hmem

/-- C10: Reads modify only drift-indicator fields. Whatever the executor
replies, a Principal Read that saves a state preserves `password`,
`database_resource_arn` and `database_secret_arn` from the prior state, and a
Grant Read that saves a state preserves `user`, `host`, `database`,
`database_resource_arn` and `database_secret_arn` (only the privilege list
may change). -/
theorem c10_reads_frame (exec : Stmt → ExecReply)
    (ustate : MysqlUserResourceModel) (gstate : MysqlGrantResourceModel) :
    (∀ st, (MysqlUserResource.read exec ustate).2 = OpResult.ok st →
      st.password = ustate.password ∧
      st.databaseResourceArn = ustate.databaseResourceArn ∧
      st.databaseSecretArn = ustate.databaseSecretArn) ∧
    (∀ st, (MysqlGrantResource.read exec gstate).2 = GrantReadOutcome.ok st →
      st.user = gstate.user ∧ st.host = gstate.host ∧
      st.database = gstate.database ∧
      st.databaseResourceArn = gstate.databaseResourceArn ∧
      st.databaseSecretArn = gstate.databaseSecretArn) := by
  constructor
  · intro st hok
    cases hx : exec (readUserStmt ustate) with
    | failure msg => simp [MysqlUserResource.read, hx] at hok
    | success recs =>
        simp only [MysqlUserResource.read, hx] at hok
        split at hok <;> (injection hok with h; subst h; exact ⟨rfl, rfl, rfl⟩)
  · intro st hok
    cases hx : exec (readGrantsStmt gstate) with
    | failure msg =>
        by_cases hc :
            goContains msg (grantsNotDefinedErrMsg gstate.user gstate.host) = true <;>
          simp [MysqlGrantResource.read, hx, hc] at hok
    | success recs =>
        simp only [MysqlGrantResource.read, hx] at hok
        split at hok <;> (injection hok with h; subst h; exact ⟨rfl, rfl, rfl, rfl, rfl⟩)

/-- A concrete Principal prior state used to witness C10. -/
def c10User : MysqlUserResourceModel :=
  { user := "other", password := "other12345678901", host := "%",
    databaseResourceArn := "arnR-", databaseSecretArn := "arnS-" }

/-- A concrete Grant prior state used to witness C10. -/
def c10Grant : MysqlGrantResourceModel :=
  { user := "test", host := "%", database := "integration_test",
    privileges := some ["SELECT"],
    databaseResourceArn := "arnR-", databaseSecretArn := "arnS-" }

/-- C10 witness: a Grant Read that blanks the privilege list (the executor
returned the single USAGE row) still preserves every frame field of the prior
state. -/
theorem c10_witness :
    ({ c10Grant with privileges := none } : MysqlGrantResourceModel).user = c10Grant.user ∧
    ({ c10Grant with privileges := none } : MysqlGrantResourceModel).host = c10Grant.host ∧
    ({ c10Grant with privileges := none } : MysqlGrantResourceModel).database = c10Grant.database ∧
    ({ c10Grant with privileges := none } : MysqlGrantResourceModel).databaseResourceArn =
      c10Grant.databaseResourceArn ∧
    ({ c10Grant with privileges := none } : MysqlGrantResourceModel).databaseSecretArn =
      c10Grant.databaseSecretArn :=
  (c10_reads_frame (fun _ => ExecReply.success (some [()])) c10User c10Grant).2
    { c10Grant with privileges := none } (by decide)
